import Mathlib

/-!
# Verification of the sneaker-release refresh cache (src/sneaker_releases.py)

Shallow embedding of the refresh-cache subsystem of the discord-calendar
repository. Times are modelled as seconds (`Nat`); `datetime.now()` becomes an
explicit `now : Nat` parameter and the local calendar date becomes an explicit
`today : PyDate` parameter. Python exceptions are modelled with `Except`:
a function whose Python body catches an exception handles the corresponding
`Except.error` branch explicitly, and an exception the Python code does not
catch propagates as `Except.error`. The module-level `_state` dict becomes the
`CacheState` structure and is passed/returned explicitly.

Python truthiness notes used throughout: `_state['releases']` is only ever
`None` or a non-empty list in reachable states, and every use site tests it
with plain truthiness (`not _state['releases']`, `_state['releases'] or []`),
so it is modelled as a `List Item` with `[]` standing for `None`/empty.
`datetime` objects are always truthy, so `last_fetch_time` is `Option Nat`.
-/

/-- A single sneaker release record, as produced by `parse_sneaker_item`
(src/sneaker_releases.py lines 108-150): every key is always present, each
string field may be `None` (modelled `Option String`), `is_trending` is a
plain `bool`. -/
structure Item where
  name : Option String
  release_date : Option String
  price : Option String
  sku : Option String
  link : Option String
  is_trending : Bool
deriving Repr, DecidableEq

/-- Python exceptions that can escape the subsystem's own `try/except` blocks. -/
inductive PyErr
  | attributeError
  | typeError
deriving Repr, DecidableEq

/-- The `last_updated` field of the durable JSON file, as seen by
`load_sneaker_releases_from_file` lines 72-80:
`absent` = key missing or falsy (`None`/empty string), so the inner `if
last_updated:` is skipped; `isoString t` = a string `datetime.fromisoformat`
parses back to the instant `t` (ISO-8601 round-trips exactly);
`badString` = a string raising `ValueError`, caught, yielding `now`;
`nonString` = a truthy non-string value, on which `fromisoformat` raises
`TypeError`, which the `except (json.JSONDecodeError, IOError)` clause does
not catch. -/
inductive LastUpdatedField
  | absent
  | isoString (t : Nat)
  | badString
  | nonString
deriving Repr, DecidableEq

/-- The state of the durable file `sneaker_releases.json`:
`missing` = `os.path.exists` is false; `unreadable` = opening/decoding raises
`IOError` or `json.JSONDecodeError` (caught at line 84); `nonDict` = the file
holds valid JSON whose top-level value is not an object, so `data.get` raises
an uncaught `AttributeError`; `dict total trending releases lastUpdated` = a
JSON object carrying the four fields of the documented layout. -/
inductive FileState
  | missing
  | unreadable
  | nonDict
  | dict (total : Nat) (trending : Nat) (releases : List Item) (lastUpdated : LastUpdatedField)
deriving Repr, DecidableEq

/-- The module-level `_state` dict (lines 28-34). `fetch_lock_held` models
`fetch_lock` (a `threading.Lock`): `true` means the lock is currently held. -/
structure CacheState where
  releases : List Item
  last_fetch_time : Option Nat
  fetch_lock_held : Bool
  fetch_in_progress : Bool
  first_run : Bool
deriving Repr, DecidableEq

/-- The `_state` dict as initialised at import time: no releases, no fetch time, lock
free, no fetch in progress, `first_run = True`. -/
def initState : CacheState :=
  { releases := [], last_fetch_time := none, fetch_lock_held := false,
    fetch_in_progress := false, first_run := true }

/-- Constant `FETCH_INTERVAL_HOURS = 6` (line 19). -/
def FETCH_INTERVAL_HOURS : Nat := 6

/-- The window `timedelta(hours=FETCH_INTERVAL_HOURS)` expressed in seconds. -/
def fetchIntervalSecs : Nat := FETCH_INTERVAL_HOURS * 3600

/-- Constant `MAX_PAGES = 10` (line 20). -/
def MAX_PAGES : Nat := 10

/-! ## DateNormalizer: `parse_date` (lines 36-55)

`parse_date` tries `DATE_FORMATS = ['%B %d, %Y', '%b %d, %Y', '%Y-%m-%d',
'%m/%d/%Y', '%d/%m/%Y']` in order via `datetime.strptime` and returns the
first success. The embedding reproduces CPython `_strptime` semantics:
a directive `%d` or `%m` consumes the entire maximal digit run at its
position (1 or 2 digits, value within range, a leading zero allowed), `%Y`
consumes exactly a 4-digit run, month names match case-insensitively, a
space in the format matches one or more whitespace characters, and the whole
input must be consumed. `datetime` validates the day against the month
length and rejects year 0, raising `ValueError`, which the source catches
and treats as "try the next format". The `lru_cache` decoration is
semantically transparent for a pure function and is not modelled. -/

/-- A Python `datetime.date`: a calendar day, field-validated on construction. -/
structure PyDate where
  year : Nat
  month : Nat
  day : Nat
deriving Repr, DecidableEq

/-- Gregorian leap-year rule, as used by `datetime`. -/
def isLeapYear (y : Nat) : Bool := y % 4 = 0 && (y % 100 != 0 || y % 400 = 0)

/-- Number of days in month `m` of year `y`. -/
def daysInMonth (y m : Nat) : Nat :=
  if m = 2 then (if isLeapYear y then 29 else 28)
  else if m = 4 ∨ m = 6 ∨ m = 9 ∨ m = 11 then 30
  else 31

/-- Constructor `datetime.date(y, m, d)`: `none` when the constructor would raise
`ValueError` (year outside 1..9999, month outside 1..12, day outside the
month). -/
def mkDate (y m d : Nat) : Option PyDate :=
  if 1 ≤ y ∧ y ≤ 9999 ∧ 1 ≤ m ∧ m ≤ 12 ∧ 1 ≤ d ∧ d ≤ daysInMonth y m then
    some ⟨y, m, d⟩
  else none

/-- Case-insensitive literal match: consume the characters of the first list
from the front of the second, ignoring case, returning the rest. -/
def stripCI : List Char → List Char → Option (List Char)
  | [], rest => some rest
  | _ :: _, [] => none
  | p :: ps, c :: cs => if p.toLower = c.toLower then stripCI ps cs else none

/-- Match one month name from `names` (numbered from `i`) at the front of the
input, case-insensitively, as the `%B`/`%b` directive does. No English month
name is a prefix of another within either list, so first-match is unambiguous. -/
def matchMonth : List String → Nat → List Char → Option (Nat × List Char)
  | [], _, _ => none
  | nm :: rest, i, s =>
    match stripCI nm.toList s with
    | some r => some (i, r)
    | none => matchMonth rest (i + 1) s

/-- Numeric value of a run of decimal digits. -/
def digitsVal (ds : List Char) : Nat := ds.foldl (fun a c => a * 10 + (c.toNat - 48)) 0

/-- A `%d`/`%m`-style numeric directive: the maximal digit run at the front
must be 1..`maxLen` digits long and its value must lie in `[lo, hi]`
(CPython's directive regex, e.g. `3[01]|[12]\d|0[1-9]|[1-9]` for `%d`,
accepts exactly these runs when followed by a non-digit). -/
def numField (maxLen lo hi : Nat) (s : List Char) : Option (Nat × List Char) :=
  let ds := s.takeWhile Char.isDigit
  let rest := s.dropWhile Char.isDigit
  if 1 ≤ ds.length ∧ ds.length ≤ maxLen ∧ lo ≤ digitsVal ds ∧ digitsVal ds ≤ hi then
    some (digitsVal ds, rest)
  else none

/-- The `%Y` directive: exactly a 4-digit run (CPython uses the regex
`\d\d\d\d`; a longer digit run makes the following literal fail). -/
def yearField (s : List Char) : Option (Nat × List Char) :=
  let ds := s.takeWhile Char.isDigit
  let rest := s.dropWhile Char.isDigit
  if ds.length = 4 then some (digitsVal ds, rest) else none

/-- A whitespace character in the format: matches one or more whitespace
characters in the input. -/
def wsField (s : List Char) : Option (List Char) :=
  match s with
  | c :: rest => if c.isWhitespace then some (rest.dropWhile Char.isWhitespace) else none
  | [] => none

/-- A literal (non-whitespace) character in the format. -/
def litField (ch : Char) (s : List Char) : Option (List Char) :=
  match s with
  | c :: rest => if c = ch then some rest else none
  | [] => none

/-- English month names, as `%B` matches them. -/
def MONTH_NAMES : List String :=
  ["January", "February", "March", "April", "May", "June", "July",
   "August", "September", "October", "November", "December"]

/-- Abbreviated English month names, as `%b` matches them. -/
def MONTH_ABBRS : List String :=
  ["Jan", "Feb", "Mar", "Apr", "May", "Jun", "Jul", "Aug", "Sep", "Oct", "Nov", "Dec"]

/-- Format `'%B %d, %Y'` of `strptime` (or `'%b %d, %Y'` when given
`MONTH_ABBRS`), e.g. `June 1, 2024`. -/
def parseMonthNameFormat (names : List String) (s : List Char) : Option PyDate :=
  (matchMonth names 1 s).bind fun mr =>
  (wsField mr.2).bind fun r2 =>
  (numField 2 1 31 r2).bind fun dr =>
  (litField ',' dr.2).bind fun r4 =>
  (wsField r4).bind fun r5 =>
  (yearField r5).bind fun yr =>
  if yr.2 = [] then mkDate yr.1 mr.1 dr.1 else none

/-- Format `'%Y-%m-%d'` of `strptime`. -/
def parseIsoFormat (s : List Char) : Option PyDate :=
  (yearField s).bind fun yr =>
  (litField '-' yr.2).bind fun r2 =>
  (numField 2 1 12 r2).bind fun mr =>
  (litField '-' mr.2).bind fun r4 =>
  (numField 2 1 31 r4).bind fun dr =>
  if dr.2 = [] then mkDate yr.1 mr.1 dr.1 else none

/-- Format `'%m/%d/%Y'` of `strptime`. -/
def parseMdyFormat (s : List Char) : Option PyDate :=
  (numField 2 1 12 s).bind fun mr =>
  (litField '/' mr.2).bind fun r2 =>
  (numField 2 1 31 r2).bind fun dr =>
  (litField '/' dr.2).bind fun r4 =>
  (yearField r4).bind fun yr =>
  if yr.2 = [] then mkDate yr.1 mr.1 dr.1 else none

/-- Format `'%d/%m/%Y'` of `strptime`. -/
def parseDmyFormat (s : List Char) : Option PyDate :=
  (numField 2 1 31 s).bind fun dr =>
  (litField '/' dr.2).bind fun r2 =>
  (numField 2 1 12 r2).bind fun mr =>
  (litField '/' mr.2).bind fun r4 =>
  (yearField r4).bind fun yr =>
  if yr.2 = [] then mkDate yr.1 mr.1 dr.1 else none

/-- Function `parse_date` (lines 36-55): empty input parses to nothing; otherwise the
five formats of `DATE_FORMATS` are tried in order and the first success wins. -/
def parse_date (dateStr : String) : Option PyDate :=
  if dateStr = "" then none
  else
    let s := dateStr.toList
    (parseMonthNameFormat MONTH_NAMES s) <|> (parseMonthNameFormat MONTH_ABBRS s) <|>
      (parseIsoFormat s) <|> (parseMdyFormat s) <|> (parseDmyFormat s)

/-- Day number of a calendar date (the standard civil-calendar day count,
offset by a constant from the Unix epoch; only differences and order matter
here). `datetime.date` comparison and `timedelta(days=n)` addition coincide
with `Nat` comparison and addition on this day number. -/
def toRD (dt : PyDate) : Nat :=
  let y := if dt.month ≤ 2 then dt.year - 1 else dt.year
  let era := y / 400
  let yoe := y - era * 400
  let mp := (dt.month + 9) % 12
  let doy := (153 * mp + 2) / 5 + dt.day - 1
  let doe := yoe * 365 + yoe / 4 - yoe / 100 + doy
  era * 146097 + doe

/-! ## SnapshotStore: `load_sneaker_releases_from_file` (57-86) and
`save_sneaker_data` (244-269) -/

/-- Function `load_sneaker_releases_from_file` (lines 57-86). Returns `(releases,
last_fetch_time)`. A missing file and an unreadable/JSON-invalid file yield
`(None, None)` (the latter through the `except (json.JSONDecodeError,
IOError)` clause). A file holding valid JSON that is not an object makes
`data.get('releases', [])` raise `AttributeError`, which that clause does not
catch, and a truthy non-string `last_updated` makes
`datetime.fromisoformat` raise `TypeError`, likewise uncaught: both are
modelled as `Except.error`. -/
def load_sneaker_releases_from_file (now : Nat) :
    FileState → Except PyErr (Option (List Item) × Option Nat)
  | .missing => .ok (none, none)
  | .unreadable => .ok (none, none)
  | .nonDict => .error .attributeError
  | .dict _ _ rs lu =>
    match lu with
    | .absent => .ok (some rs, none)
    | .isoString t => .ok (some rs, some t)
    | .badString => .ok (some rs, some now)
    | .nonString => .error .typeError

/-- The count `sum(1 for s in releases if s.get('is_trending', False))` (line 258). -/
def count_trending (rs : List Item) : Nat := rs.countP (fun x => x.is_trending)

/-- The file contents written by a successful `save_sneaker_data(releases)`
call made at instant `now` (lines 254-264): total count, trending count, the
item list, and `datetime.now().isoformat()`. (On an exception the function
returns `False` instead; that outcome is the `saveOk = false` parameter of
`fetch_thread` below.) -/
def save_sneaker_data (rs : List Item) (now : Nat) : FileState :=
  .dict rs.length (count_trending rs) rs (.isoString now)

/-- Total-count field of the durable file (0 when there is no JSON object). -/
def fileTotal : FileState → Nat
  | .dict t _ _ _ => t
  | _ => 0

/-- Trending-count field of the durable file (0 when there is no JSON object). -/
def fileTrending : FileState → Nat
  | .dict _ tr _ _ => tr
  | _ => 0

/-! ## Crawler: `fetch_sneaker_data` (193-242) -/

/-- The sort key `lambda x: x.get('release_date', '')` (line 232). Items
produced by `parse_sneaker_item` always carry the key, so the `''` default is
only reached for a `None`-free lookup; a stored `None` is returned as `None`
(the `Option.getD` is only evaluated on `some` keys below). -/
def sortKey (x : Item) : String := x.release_date.getD ""

/-- The sort `all_sneakers.sort(key=lambda x: x.get('release_date', ''))` (line 232).
CPython's sort performs no comparison on a list of length 0 or 1; on a longer
list every element takes part in at least one comparison during run
detection, and any comparison involving `None` (against `None` or against a
`str`) raises `TypeError`. So the sort succeeds exactly when the list has at
most one element or every key is a string, and then it stable-sorts
ascending by the string key (code-point lexicographic order, as in Lean's
`String` order). -/
def pySortByDate (l : List Item) : Except Unit (List Item) :=
  if l.length ≤ 1 then .ok l
  else if l.all (fun x => x.release_date.isSome) then
    .ok (l.mergeSort (fun a b => decide (sortKey a ≤ sortKey b)))
  else .error ()

/-- Function `fetch_sneaker_data` (lines 193-242). `pages` is the list of per-page
results for pages 1..MAX_PAGES in page-index order: `executor.map` yields
results in the order of its arguments regardless of completion order, and
`fetch_page` absorbs every per-page error into `[]`. The loop at lines
223-228 concatenates pages up to (excluding) the first empty one, the sort at
line 232 orders the aggregate by raw date string, and the `except Exception`
at line 239 turns a sort `TypeError` into an empty result. -/
def fetch_sneaker_data (pages : List (List Item)) : List Item :=
  match pySortByDate ((pages.takeWhile (fun p => !p.isEmpty)).flatten) with
  | .ok l => l
  | .error _ => []

/-! ## RefreshCoordinator: `_state` policy, `get_sneaker_releases` (271-335),
`fetch_thread` (308-327), `should_fetch_new_data` (88-106),
`get_upcoming_sneaker_releases` (337-384) -/

/-- How one execution of the background fetch went: `completed pages` means
`fetch_sneaker_data` ran over the given per-page adapter results (its own
`try/except` already absorbs crawl errors into `[]`); `raised` means some
exception escaped into the thread body and was caught by the `except` at
line 322. -/
inductive CrawlRun
  | completed (pages : List (List Item))
  | raised
deriving Repr, DecidableEq

/-- The body of `fetch_thread` (lines 308-327), run with the single-flight
lock held: sets `fetch_in_progress`, crawls, and swaps `releases` and
`last_fetch_time` only when the crawl result is non-empty and
`save_sneaker_data` returned `True` (`saveOk`); the `finally` clause clears
`fetch_in_progress` and releases the lock on every path. -/
def fetch_thread (run : CrawlRun) (saveOk : Bool) (now : Nat) (s : CacheState) : CacheState :=
  let sIn := { s with fetch_in_progress := true }
  let sBody :=
    match run with
    | .raised => sIn
    | .completed pages =>
      let allSneakers := fetch_sneaker_data pages
      if allSneakers.isEmpty then sIn
      else if saveOk then { sIn with releases := allSneakers, last_fetch_time := some now }
      else sIn
  { sBody with fetch_in_progress := false, fetch_lock_held := false }

/-- Function `should_fetch_new_data` (lines 88-106): on first run, clear the flag and
answer yes; then yes when no fetch time is recorded, or when the time since
the last fetch strictly exceeds the 6-hour window. Returns the answer and the
updated state. -/
def should_fetch_new_data (now : Nat) (s : CacheState) : Bool × CacheState :=
  if s.first_run then (true, { s with first_run := false })
  else
    match s.last_fetch_time with
    | none => (true, s)
    | some t => (decide (now - t > fetchIntervalSecs), s)

/-- Lines 281-286 of `get_sneaker_releases` (shared verbatim by
`get_upcoming_sneaker_releases` at 347-352): when no releases are held in
memory, load the file and adopt both the list and its timestamp if the loaded
list is truthy. An error from the load propagates (there is no enclosing
`try`). -/
def adoptFromFile (now : Nat) (fs : FileState) (s : CacheState) : Except PyErr CacheState :=
  if s.releases.isEmpty then
    match load_sneaker_releases_from_file now fs with
    | .error e => .error e
    | .ok (some rs, lft) =>
      if rs.isEmpty then .ok s
      else .ok { s with releases := rs, last_fetch_time := lft }
    | .ok (none, _) => .ok s
  else .ok s

/-- The test `(datetime.now() - _state['last_fetch_time']) < timedelta(hours=6)` with
the preceding truthiness test of `last_fetch_time` (lines 292-293). A fetch
time in the future gives a negative delta in Python and a zero difference
here; both compare below the window. -/
def cacheFresh (now : Nat) (s : CacheState) : Bool :=
  match s.last_fetch_time with
  | none => false
  | some t => decide (now - t < fetchIntervalSecs)

/-- The cached-serve condition of lines 289-293: not forcing, first-run flag
already cleared, releases truthy, fetch time recorded and fresh. -/
def servesCached (now : Nat) (force : Bool) (s : CacheState) : Bool :=
  !force && !s.first_run && !s.releases.isEmpty && cacheFresh now s

/-- The condition under which `get_sneaker_releases` spawns a background
fetch (lines 297-332): the cached-serve condition fails, no fetch is flagged
in progress, and the non-blocking lock acquisition succeeds. -/
def triggersRefresh (now : Nat) (force : Bool) (s : CacheState) : Bool :=
  !servesCached now force s && !s.fetch_in_progress && !s.fetch_lock_held

/-- Function `get_sneaker_releases(force_refresh)` (lines 271-335). The result triple
is (returned list, `_state` as left by the call itself, whether a background
`fetch_thread` was spawned). The spawned thread's later effect is modelled
separately by `fetch_thread`; the call itself never waits for it and returns
the currently held list (`_state['releases'] or []`, which is `s.releases`
under the `[] = None` identification) on every path. -/
def get_sneaker_releases (now : Nat) (fs : FileState) (force : Bool) (s : CacheState) :
    Except PyErr (List Item × CacheState × Bool) :=
  match adoptFromFile now fs s with
  | .error e => .error e
  | .ok s1 =>
    if servesCached now force s1 then .ok (s1.releases, s1, false)
    else if s1.fetch_in_progress then .ok (s1.releases, s1, false)
    else if s1.fetch_lock_held then .ok (s1.releases, s1, false)
    else .ok (s1.releases, { s1 with fetch_lock_held := true }, true)

/-- The filter of lines 369-380: keep an item when its trending flag is set
and its raw date string parses to a date within `[today, today + days]`,
both endpoints included. A missing/`None` date or a parse failure excludes
the item (the loop body raises nothing: `parse_date(None)` and
`parse_date('')` both return `None`). -/
def upcomingPred (todayRD endRD : Nat) (x : Item) : Bool :=
  x.is_trending &&
    match x.release_date with
    | none => false
    | some ds =>
      match parse_date ds with
      | none => false
      | some d => decide (todayRD ≤ toRD d) && decide (toRD d ≤ endRD)

/-- Function `get_upcoming_sneaker_releases(days)` (lines 337-384): adopt from file if
memory is empty, consult `should_fetch_new_data` and trigger a plain
`get_sneaker_releases()` call when it says so (never waiting for the fetch it
may spawn), then filter whatever `_state['releases']` holds at that point.
`today` is the process's local calendar date at call time. The result triple
is (returned list, `_state` as left by the call, whether a fetch was
spawned). -/
def get_upcoming_sneaker_releases (now : Nat) (today : PyDate) (fs : FileState) (days : Nat)
    (s : CacheState) : Except PyErr (List Item × CacheState × Bool) :=
  match adoptFromFile now fs s with
  | .error e => .error e
  | .ok s1 =>
    if (should_fetch_new_data now s1).1 then
      match get_sneaker_releases now fs false (should_fetch_new_data now s1).2 with
      | .error e => .error e
      | .ok (_, s3, trig) =>
        .ok (s3.releases.filter (upcomingPred (toRD today) (toRD today + days)), s3, trig)
    else
      .ok ((should_fetch_new_data now s1).2.releases.filter
            (upcomingPred (toRD today) (toRD today + days)),
          (should_fetch_new_data now s1).2, false)

/-- Runs `n` consecutive `get_sneaker_releases` calls against a shared `_state`,
counting how many of them spawned a background fetch. Concurrent callers are
serialised at the one atomic operation that gates spawning, the non-blocking
`fetch_lock.acquire(blocking=False)`; a call that fails it leaves the lock
word unchanged, so any interleaving of the callers' steps spawns the same
set of fetches as this sequential composition. -/
def run_gets (now : Nat) (fs : FileState) (force : Bool) : Nat → CacheState → CacheState × Nat
  | 0, s => (s, 0)
  | n + 1, s =>
    match get_sneaker_releases now fs force s with
    | .error _ => run_gets now fs force n s
    | .ok (_, s1, trig) =>
      let r := run_gets now fs force n s1
      (r.1, (if trig then 1 else 0) + r.2)

/-! ## Concrete data used by witnesses and counterexamples -/

/-- A trending item with an ISO release date. -/
def itmA : Item :=
  { name := some "A", release_date := some "2024-06-01",
    price := none, sku := none, link := none, is_trending := true }

/-- A durable file holding one release, saved at instant 0. -/
def c1File : FileState := .dict 1 1 [itmA] (.isoString 0)

/-- The `_state` value right after the first `get_sneaker_releases(False)` call against
`c1File`: the file snapshot adopted, the lock taken for the spawned fetch,
and `first_run` still `True` (nothing in `get_sneaker_releases` clears it). -/
def c1s1 : CacheState :=
  { releases := [itmA], last_fetch_time := some 0, fetch_lock_held := true,
    fetch_in_progress := false, first_run := true }

/-- The `_state` value after the spawned fetch finished without updating anything. -/
def c1s2 : CacheState :=
  { releases := [itmA], last_fetch_time := some 0, fetch_lock_held := false,
    fetch_in_progress := false, first_run := true }

/-- Trending item inside the 7-day query window. -/
def w1 : Item :=
  { name := some "w1", release_date := some "2024-06-01",
    price := none, sku := none, link := none, is_trending := true }

/-- Non-trending item inside the window. -/
def w2 : Item :=
  { name := some "w2", release_date := some "2024-06-02",
    price := none, sku := none, link := none, is_trending := false }

/-- Trending item outside the 7-day window. -/
def w3 : Item :=
  { name := some "w3", release_date := some "2024-07-01",
    price := none, sku := none, link := none, is_trending := true }

/-- Trending item whose release date is `None`. -/
def w4 : Item :=
  { name := some "w4", release_date := none,
    price := none, sku := none, link := none, is_trending := true }

/-- Trending item whose release date parses under no format. -/
def w5 : Item :=
  { name := some "w5", release_date := some "soon",
    price := none, sku := none, link := none, is_trending := true }

/-- A settled cache state holding the five query-test items. -/
def s9 : CacheState :=
  { releases := [w1, w2, w3, w4, w5], last_fetch_time := some 0,
    fetch_lock_held := false, fetch_in_progress := false, first_run := false }

/-- A cache state in which a refresh is running: lock held, flag set. -/
def sLocked : CacheState :=
  { releases := [w1], last_fetch_time := some 0,
    fetch_lock_held := true, fetch_in_progress := true, first_run := false }

/-- Shorthand for building crawl items that differ in name and date. -/
def mkItm (nm ds : String) : Item :=
  { name := some nm, release_date := some ds,
    price := none, sku := none, link := none, is_trending := false }

/-- Per-page adapter results for the crawl witness: pages of 5, 3, 0 and 5
items followed by empty pages up to `MAX_PAGES`, with dates out of order. -/
def wPages : List (List Item) :=
  [[mkItm "a1" "2024-06-05", mkItm "a2" "2024-06-03", mkItm "a3" "2024-06-09",
    mkItm "a4" "2024-06-01", mkItm "a5" "2024-06-07"],
   [mkItm "b1" "2024-06-02", mkItm "b2" "2024-06-08", mkItm "b3" "2024-06-04"],
   [],
   [mkItm "c1" "2024-06-10", mkItm "c2" "2024-06-11", mkItm "c3" "2024-06-12",
    mkItm "c4" "2024-06-13", mkItm "c5" "2024-06-14"],
   [], [], [], [], [], []]

/-- An item whose release date is `None`, as `parse_sneaker_item` produces
when the date element is absent from the page. -/
def mxNone : Item :=
  { name := some "no-date", release_date := none,
    price := none, sku := none, link := none, is_trending := true }

/-- Per-page results mixing a string-dated and a `None`-dated item. -/
def wMixPages : List (List Item) :=
  [[mkItm "dated" "2024-06-01", mxNone], [], [], [], [], [], [], [], [], []]

/-- A cache state holding a prior snapshot, for the failed-refresh witness. -/
def sPrior : CacheState :=
  { releases := [w1], last_fetch_time := some 3,
    fetch_lock_held := true, fetch_in_progress := true, first_run := false }

/-! ## Helper lemmas -/

/-- File adoption never touches the lock word, the in-progress flag or the
first-run flag. -/
theorem adoptFromFile_flags {now : Nat} {fs : FileState} {s s1 : CacheState}
    (h : adoptFromFile now fs s = .ok s1) :
    s1.fetch_lock_held = s.fetch_lock_held ∧ s1.fetch_in_progress = s.fetch_in_progress ∧
      s1.first_run = s.first_run := by
  unfold adoptFromFile at h
  split at h
  · split at h
    · simp at h
    · split at h
      · injection h with h2
        subst h2
        exact ⟨rfl, rfl, rfl⟩
      · injection h with h2
        subst h2
        exact ⟨rfl, rfl, rfl⟩
    · injection h with h2
      subst h2
      exact ⟨rfl, rfl, rfl⟩
  · injection h with h2
    subst h2
    exact ⟨rfl, rfl, rfl⟩

/-- While the lock is held, any `get_sneaker_releases` call whose file
adoption succeeds returns the held snapshot without spawning a fetch. -/
theorem get_when_lock_held {now : Nat} {fs : FileState} (force : Bool) {s s1 : CacheState}
    (h : adoptFromFile now fs s = .ok s1) (hl : s.fetch_lock_held = true) :
    get_sneaker_releases now fs force s = .ok (s1.releases, s1, false) := by
  have hfl : s1.fetch_lock_held = true := (adoptFromFile_flags h).1.trans hl
  unfold get_sneaker_releases
  rw [h]
  by_cases hc : servesCached now force s1 = true
  · simp [hc]
  · by_cases hp : s1.fetch_in_progress = true <;> simp [hc, hp, hfl]

/-- A list of length at most one has all members equal. -/
theorem length_le_one_all_eq {α : Type _} {l : List α} (h : l.length ≤ 1) :
    ∀ x ∈ l, ∀ y ∈ l, x = y := by
  cases l with
  | nil => intro x hx; cases hx
  | cons a t =>
    cases t with
    | nil => intro x hx y hy; simp_all
    | cons b t2 => simp at h

/-- The item sort relation is transitive. -/
theorem itemDateLe_trans (a b c : Item)
    (h1 : decide (sortKey a ≤ sortKey b) = true)
    (h2 : decide (sortKey b ≤ sortKey c) = true) :
    decide (sortKey a ≤ sortKey c) = true := by
  simp only [decide_eq_true_eq] at h1 h2 ⊢
  exact le_trans h1 h2

/-- The item sort relation is total. -/
theorem itemDateLe_total (a b : Item) :
    (decide (sortKey a ≤ sortKey b) || decide (sortKey b ≤ sortKey a)) = true := by
  simp only [Bool.or_eq_true, decide_eq_true_eq]
  exact le_total _ _

/-- When every item carries a date string, the Python sort succeeds and
produces a sorted permutation of its input. -/
theorem pySortByDate_ok {l : List Item} (hd : ∀ x ∈ l, x.release_date.isSome) :
    ∃ m, pySortByDate l = .ok m ∧ List.Perm m l ∧
      List.Sorted (fun a b => sortKey a ≤ sortKey b) m := by
  by_cases hlen : l.length ≤ 1
  · refine ⟨l, by simp [pySortByDate, hlen], List.Perm.refl l, ?_⟩
    cases l with
    | nil => simp
    | cons a t =>
      cases t with
      | nil => simp
      | cons b t2 => simp at hlen
  · have hall : l.all (fun x => x.release_date.isSome) = true := by
      rw [List.all_eq_true]
      intro x hx
      simpa using hd x hx
    have hok : pySortByDate l = .ok (l.mergeSort (fun a b => decide (sortKey a ≤ sortKey b))) := by
      unfold pySortByDate
      rw [if_neg hlen, if_pos hall]
    refine ⟨_, hok, List.mergeSort_perm l _, ?_⟩
    have hs := List.sorted_mergeSort itemDateLe_trans itemDateLe_total l
    exact List.Pairwise.imp (fun h => by simpa using h) hs

/-! ## Claim theorems -/

/-- C2: On every execution of the background refresh task, the in-memory
snapshot and last-fetch timestamp are replaced exactly when the crawl
produced a non-empty item list and the save succeeded; on an empty crawl
result, a save failure, or an exception during the crawl, both are left
unchanged. -/
theorem snapshot_swapped_only_on_success (run : CrawlRun) (saveOk : Bool) (now : Nat)
    (s : CacheState) :
    (fetch_thread run saveOk now s).releases =
      (match run with
       | .completed pages =>
         if !(fetch_sneaker_data pages).isEmpty && saveOk then fetch_sneaker_data pages
         else s.releases
       | .raised => s.releases) ∧
    (fetch_thread run saveOk now s).last_fetch_time =
      (match run with
       | .completed pages =>
         if !(fetch_sneaker_data pages).isEmpty && saveOk then some now
         else s.last_fetch_time
       | .raised => s.last_fetch_time) := by
  cases run with
  | raised => exact ⟨rfl, rfl⟩
  | completed pages =>
    by_cases he : (fetch_sneaker_data pages).isEmpty <;>
      by_cases hs : saveOk = true <;>
        simp [fetch_thread, he, hs]

/-- C3: On every exit path of the background refresh task — swap, empty
result, save failure, or an exception in the task body — the in-progress
flag ends up false and the lock released, and a subsequent forced refresh
attempt acquires the lock again (it returns with the spawn flag set). -/
theorem fetch_thread_always_releases_lock (run : CrawlRun) (saveOk : Bool) (now now2 : Nat)
    (s : CacheState) :
    (fetch_thread run saveOk now s).fetch_in_progress = false ∧
    (fetch_thread run saveOk now s).fetch_lock_held = false ∧
    (∃ l s2, get_sneaker_releases now2 .missing true (fetch_thread run saveOk now s) =
      .ok (l, s2, true)) := by
  refine ⟨rfl, rfl, ?_⟩
  have hadopt : adoptFromFile now2 .missing (fetch_thread run saveOk now s) =
      .ok (fetch_thread run saveOk now s) := by
    unfold adoptFromFile load_sneaker_releases_from_file
    split <;> rfl
  have hip : (fetch_thread run saveOk now s).fetch_in_progress = false := rfl
  have hl : (fetch_thread run saveOk now s).fetch_lock_held = false := rfl
  unfold get_sneaker_releases
  rw [hadopt]
  have hsc : servesCached now2 true (fetch_thread run saveOk now s) = false := by
    simp [servesCached]
  refine ⟨(fetch_thread run saveOk now s).releases,
    { fetch_thread run saveOk now s with fetch_lock_held := true }, ?_⟩
  simp [hsc, hip, hl]

/-- C4: while one refresh is running (the single-flight lock is held), any
number of further `get_sneaker_releases(force_refresh=True)` calls spawn
zero additional crawls, each returning the currently held snapshot
immediately, and the lock stays held by the running refresh. Concurrent
callers serialise at the one atomic operation that can start a crawl — the
non-blocking lock acquisition, which fails for every one of them without
changing the lock word — so every interleaving spawns the same zero crawls
as this sequential composition. -/
theorem single_flight_no_second_crawl (now : Nat) (fs : FileState) (n : Nat) (s : CacheState)
    (hl : s.fetch_lock_held = true) :
    (run_gets now fs true n s).2 = 0 ∧ (run_gets now fs true n s).1.fetch_lock_held = true := by
  induction n generalizing s with
  | zero => exact ⟨rfl, hl⟩
  | succ n ih =>
    unfold run_gets
    cases hadopt : adoptFromFile now fs s with
    | error e =>
      have hget : get_sneaker_releases now fs true s = .error e := by
        unfold get_sneaker_releases
        rw [hadopt]
      rw [hget]
      exact ih s hl
    | ok s1 =>
      have hget := get_when_lock_held true hadopt hl
      rw [hget]
      have hfl : s1.fetch_lock_held = true := (adoptFromFile_flags hadopt).1.trans hl
      simpa using ih s1 hfl

/-- C4 witness: three forced calls against a locked state spawn no crawl. -/
theorem single_flight_no_second_crawl_witness :
    sLocked.fetch_lock_held = true ∧
    ((run_gets 0 .missing true 3 sLocked).2 = 0 ∧
      (run_gets 0 .missing true 3 sLocked).1.fetch_lock_held = true) :=
  ⟨rfl, single_flight_no_second_crawl 0 .missing 3 sLocked rfl⟩

/-- C6: the claim that the public cache operations never raise fails on the
code: with empty in-memory state and a durable file holding valid JSON whose
top level is not an object, both `get_sneaker_releases` and
`get_upcoming_sneaker_releases` propagate the `AttributeError` that
`data.get` raises inside `load_sneaker_releases_from_file` (its `except`
clause catches only `json.JSONDecodeError` and `IOError`). -/
theorem get_surfaces_attributeError :
    get_sneaker_releases 0 .nonDict false initState = .error .attributeError ∧
    get_upcoming_sneaker_releases 0 ⟨2024, 6, 1⟩ .nonDict 7 initState =
      .error .attributeError :=
  ⟨rfl, rfl⟩

/-- C7: `load_sneaker_releases_from_file` returns `(None, None)` for a
missing file and for an unreadable or JSON-invalid file, but the claim's
"malformed in any way" fails on the code: a file holding valid JSON whose
top level is not an object raises an uncaught `AttributeError` at
`data.get`, contradicting the function's own docstring ("(None, None) if
file doesn't exist/is invalid"). -/
theorem load_tolerates_and_raises (now : Nat) :
    load_sneaker_releases_from_file now .missing = .ok (none, none) ∧
    load_sneaker_releases_from_file now .unreadable = .ok (none, none) ∧
    load_sneaker_releases_from_file now .nonDict = .error .attributeError :=
  ⟨rfl, rfl, rfl⟩

/-- C8: saving any item list at instant `tSave` and loading the file back
reproduces the same item sequence and the same timestamp (ISO-8601
round-trips exactly), and the counts written in the file agree with the
loaded item sequence. -/
theorem save_load_round_trip (rs : List Item) (tSave tLoad : Nat) :
    load_sneaker_releases_from_file tLoad (save_sneaker_data rs tSave) =
      .ok (some rs, some tSave) ∧
    fileTotal (save_sneaker_data rs tSave) = rs.length ∧
    fileTrending (save_sneaker_data rs tSave) = count_trending rs :=
  ⟨rfl, rfl, rfl⟩

/-- C1 counterexample: the claim "a refresh is triggered iff the snapshot's
age is at least 6 hours or this is the first call ever, exactly once for the
first-call case" is false on the code. Starting from the initial state with
a fresh durable snapshot (saved at instant 0), the first
`get_sneaker_releases(False)` call adopts the file and spawns a fetch (fine
so far), the spawned fetch finishes without changes, and then a second call
at instant 1 — not the first call ever, snapshot age 1 second, far below the
window — spawns a fetch again, because `get_sneaker_releases` never clears
`_state['first_run']` (only `should_fetch_new_data` does), so the
cached-serve test at line 291 keeps failing. -/
theorem first_run_never_cleared_by_get :
    get_sneaker_releases 0 c1File false initState = .ok ([itmA], c1s1, true) ∧
    fetch_thread .raised true 0 c1s1 = c1s2 ∧
    get_sneaker_releases 1 c1File false c1s2 =
      .ok ([itmA], { c1s2 with fetch_lock_held := true }, true) ∧
    1 - 0 < fetchIntervalSecs :=
  ⟨rfl, rfl, rfl, by decide⟩

/-- C1 (amended): for every `get_sneaker_releases(force_refresh=False)` call
whose file-adoption step succeeds, a background refresh is spawned iff no
fetch is flagged in progress, the non-blocking lock acquisition succeeds,
and the cached-serve condition fails — i.e. the first-run flag is still set,
or the snapshot is empty, or no last-fetch time is recorded, or the
snapshot's age is at least the 6-hour window. `get_sneaker_releases` itself
never clears the first-run flag, so the first-call trigger is not limited to
exactly once. The call never blocks on the refresh: it returns the snapshot
held before the refresh starts. -/
theorem get_trigger_characterization (now : Nat) (fs : FileState) (s s1 : CacheState)
    (h : adoptFromFile now fs s = .ok s1) :
    get_sneaker_releases now fs false s =
      .ok (s1.releases,
        if triggersRefresh now false s1 then { s1 with fetch_lock_held := true } else s1,
        triggersRefresh now false s1) := by
  unfold get_sneaker_releases
  rw [h]
  by_cases hc : servesCached now false s1 = true
  · simp [triggersRefresh, hc]
  · by_cases hp : s1.fetch_in_progress = true
    · simp [triggersRefresh, hc, hp]
    · by_cases hl : s1.fetch_lock_held = true <;> simp [triggersRefresh, hc, hp, hl]

/-- C1 witness: the very first call of a process with no durable file spawns
a refresh and returns the (empty) held snapshot. -/
theorem get_trigger_characterization_witness :
    adoptFromFile 0 .missing initState = .ok initState ∧
    get_sneaker_releases 0 .missing false initState =
      .ok (initState.releases,
        if triggersRefresh 0 false initState then { initState with fetch_lock_held := true }
        else initState,
        triggersRefresh 0 false initState) :=
  ⟨rfl, get_trigger_characterization 0 .missing initState initState rfl⟩

/-- C5: for a crawl whose per-page results arrive in page-index order (as
`executor.map` guarantees) and whose aggregated items all carry a date
string, the aggregate is exactly (a permutation of) the concatenation of all
pages strictly before the first empty page, sorted ascending by the raw
release-date string. -/
theorem crawl_aggregation_and_sort (pages : List (List Item))
    (_hMaxPages : pages.length = MAX_PAGES)
    (hdates : ∀ x ∈ (pages.takeWhile (fun p => !p.isEmpty)).flatten, x.release_date.isSome) :
    List.Perm (fetch_sneaker_data pages) ((pages.takeWhile (fun p => !p.isEmpty)).flatten) ∧
      List.Sorted (fun a b => sortKey a ≤ sortKey b) (fetch_sneaker_data pages) := by
  obtain ⟨m, hok, hperm, hsort⟩ := pySortByDate_ok hdates
  have hfd : fetch_sneaker_data pages = m := by
    unfold fetch_sneaker_data
    rw [hok]
  rw [hfd]
  exact ⟨hperm, hsort⟩

/-- C5 witness: pages of 5, 3, 0 and 5 items give an aggregate holding
exactly the 8 items of the first two pages, sorted by date string. -/
theorem crawl_aggregation_and_sort_witness :
    wPages.length = MAX_PAGES ∧
    (∀ x ∈ (wPages.takeWhile (fun p => !p.isEmpty)).flatten, x.release_date.isSome) ∧
    (List.Perm (fetch_sneaker_data wPages)
      [mkItm "a1" "2024-06-05", mkItm "a2" "2024-06-03", mkItm "a3" "2024-06-09",
       mkItm "a4" "2024-06-01", mkItm "a5" "2024-06-07",
       mkItm "b1" "2024-06-02", mkItm "b2" "2024-06-08", mkItm "b3" "2024-06-04"] ∧
      List.Sorted (fun a b => sortKey a ≤ sortKey b) (fetch_sneaker_data wPages)) :=
  ⟨rfl, by decide, crawl_aggregation_and_sort wPages rfl (by decide)⟩

/-- C9: whenever `get_upcoming_sneaker_releases` returns, the returned list
is exactly the filter of the held snapshot keeping the items whose trending
flag is set and whose raw date string parses via `parse_date` to a date
within `[today, today + days]`, both endpoints included; unparseable or
missing dates and non-trending items are excluded without raising. -/
theorem upcoming_is_trending_date_filter (now : Nat) (today : PyDate) (fs : FileState)
    (days : Nat) (s : CacheState) (l : List Item) (s2 : CacheState) (trig : Bool)
    (h : get_upcoming_sneaker_releases now today fs days s = .ok (l, s2, trig)) :
    l = s2.releases.filter (upcomingPred (toRD today) (toRD today + days)) := by
  unfold get_upcoming_sneaker_releases at h
  split at h
  · simp at h
  · split at h
    · split at h
      · simp at h
      · simp only [Except.ok.injEq, Prod.mk.injEq] at h
        obtain ⟨hl, hs2, -⟩ := h
        subst hs2
        exact hl.symm
    · simp only [Except.ok.injEq, Prod.mk.injEq] at h
      obtain ⟨hl, hs2, -⟩ := h
      subst hs2
      exact hl.symm

/-- C9 witness: from a settled five-item snapshot, a 7-day query on
2024-06-01 returns exactly the one trending item dated inside the window,
excluding the non-trending item, the out-of-window item, the `None`-dated
item and the unparseable-dated item. -/
theorem upcoming_is_trending_date_filter_witness :
    get_upcoming_sneaker_releases 0 ⟨2024, 6, 1⟩ .missing 7 s9 = .ok ([w1], s9, false) ∧
    [w1] = s9.releases.filter (upcomingPred (toRD ⟨2024, 6, 1⟩) (toRD ⟨2024, 6, 1⟩ + 7)) :=
  ⟨rfl,
   upcoming_is_trending_date_filter 0 ⟨2024, 6, 1⟩ .missing 7 s9 [w1] s9 false rfl⟩

/-- C10: when the aggregated crawl results mix an item whose release date is
`None` with an item whose release date is a string, the sort at line 232
raises `TypeError`, the `except` at line 239 turns the crawl result into the
empty list, and the refresh is therefore treated as failed: the prior
snapshot and timestamp are retained although pages returned non-empty item
lists. -/
theorem mixed_none_dates_fail_crawl (pages : List (List Item)) (saveOk : Bool) (now : Nat)
    (s : CacheState)
    (hn : ∃ x ∈ (pages.takeWhile (fun p => !p.isEmpty)).flatten, x.release_date = none)
    (hs : ∃ x ∈ (pages.takeWhile (fun p => !p.isEmpty)).flatten, x.release_date.isSome) :
    fetch_sneaker_data pages = [] ∧
    (fetch_thread (.completed pages) saveOk now s).releases = s.releases ∧
    (fetch_thread (.completed pages) saveOk now s).last_fetch_time = s.last_fetch_time := by
  obtain ⟨x, hxmem, hxnone⟩ := hn
  obtain ⟨y, hymem, hysome⟩ := hs
  have hlen : ¬ (pages.takeWhile (fun p => !p.isEmpty)).flatten.length ≤ 1 := by
    intro hle
    have hxy := length_le_one_all_eq hle x hxmem y hymem
    rw [hxy] at hxnone
    rw [hxnone] at hysome
    simp at hysome
  have hall : ((pages.takeWhile (fun p => !p.isEmpty)).flatten.all
      (fun x => x.release_date.isSome)) = false := by
    rw [Bool.eq_false_iff]
    intro hcontra
    rw [List.all_eq_true] at hcontra
    have := hcontra x hxmem
    rw [hxnone] at this
    cases this
  have hempty : fetch_sneaker_data pages = [] := by
    have herr : pySortByDate ((pages.takeWhile (fun p => !p.isEmpty)).flatten) = .error () := by
      unfold pySortByDate
      rw [if_neg hlen, if_neg (by simp [hall])]
    unfold fetch_sneaker_data
    rw [herr]
  refine ⟨hempty, ?_, ?_⟩ <;> simp [fetch_thread, hempty]

/-- C10 witness: one page holding a string-dated and a `None`-dated item
makes the crawl return empty, and a prior snapshot survives the refresh. -/
theorem mixed_none_dates_fail_crawl_witness :
    (∃ x ∈ (wMixPages.takeWhile (fun p => !p.isEmpty)).flatten, x.release_date = none) ∧
    (∃ x ∈ (wMixPages.takeWhile (fun p => !p.isEmpty)).flatten, x.release_date.isSome) ∧
    (fetch_sneaker_data wMixPages = [] ∧
      (fetch_thread (.completed wMixPages) true 5 sPrior).releases = sPrior.releases ∧
      (fetch_thread (.completed wMixPages) true 5 sPrior).last_fetch_time =
        sPrior.last_fetch_time) :=
  ⟨by decide, by decide, mixed_none_dates_fail_crawl wMixPages true 5 sPrior (by decide) (by decide)⟩
